import Mathlib

/-!
Shallow embedding of the interaction recorder/player, CSG settings UI
handlers and SLA background job of `src/sandboxes/opencsg/main.cpp`
(PrusaSlicer OpenCSG sandbox), together with proofs about the
specification's claims on that code.

Conventions:
* C++ `long`/`int` values become `Int` (no overflow is relevant to any
  claim: the code only stores and forwards these values).
* `std::ostream`/`std::istream` are modelled at the character level
  (`List Char`) with explicit `eofbit`/`failbit` flags, following the
  C++11 semantics of formatted extraction (`operator>>`).
* Virtual dispatch to the wrapped `MouseInput` (which forwards a call to
  its registered listeners) is modelled by emitting the forwarded call
  into an ordered effect trace.
-/

namespace OpenCSGSandbox

/-- The `WheelAxis` of `Slic3r::GL::MouseInput` (only its two alternatives
matter to the sandbox code). -/
inductive WheelAxis where
  | waVertical
  | waHorizontal
deriving DecidableEq, Repr

/-- Source: `enum EEvents { LCLK_U, RCLK_U, LCLK_D, RCLK_D, DDCLK, SCRL, MV };`
(main.cpp line 82), in declaration order. -/
inductive EEvents where
  | LCLK_U
  | RCLK_U
  | LCLK_D
  | RCLK_D
  | DDCLK
  | SCRL
  | MV
deriving DecidableEq, Repr

/-- The integer value of an `EEvents` enumerator: C++ unscoped enums
number their enumerators 0,1,2,... in declaration order. -/
def EEvents.toCInt : EEvents → Int
  | .LCLK_U => 0
  | .RCLK_U => 1
  | .LCLK_D => 2
  | .RCLK_D => 3
  | .DDCLK => 4
  | .SCRL => 5
  | .MV => 6

/-- Source: `struct Event { EEvents type; long a, b; }` (main.cpp line 83).
The constructor defaults `a = 0`, `b = 0`. -/
structure Event where
  type : EEvents
  a : Int := 0
  b : Int := 0
deriving DecidableEq, Repr

/-- A raw interaction call arriving at the `MouseInput` interface
(the six report operations of the dispatcher), with full parameters
including the wheel axis. -/
inductive MouseCall where
  | left_click_down
  | left_click_up
  | right_click_down
  | right_click_up
  | double_click
  | scroll (v d : Int) (wa : WheelAxis)
  | move_to (x y : Int)
deriving DecidableEq, Repr

/-- Mutable state of `RecorderMouseInput` (main.cpp line 90):
`std::vector<Event> m_events; bool m_recording = false, m_playing = false;` -/
structure RecState where
  m_events : List Event
  m_recording : Bool
  m_playing : Bool
deriving DecidableEq, Repr

/-- The state of a freshly constructed `RecorderMouseInput`. -/
def RecState.init : RecState := ⟨[], false, false⟩

/-- An observable action taken by a `RecorderMouseInput` handler, in
program order: appending an event to the log, or forwarding the call to
the wrapped `MouseInput` dispatcher (which dispatches it to the
registered listeners, i.e. the `Controller`). -/
inductive Effect where
  | append (e : Event)
  | forward (c : MouseCall)
deriving DecidableEq, Repr

/-- Source: `RecorderMouseInput::left_click_down` (main.cpp line 95):
`if (m_recording) m_events.emplace_back(LCLK_D);`
`if (!m_playing) MouseInput::left_click_down();` -/
def RecState.left_click_down (s : RecState) : RecState × List Effect :=
  let e : Event := { type := .LCLK_D }
  let s1 := if s.m_recording then { s with m_events := s.m_events ++ [e] } else s
  let ef1 := if s.m_recording then [Effect.append e] else []
  let ef2 := if s1.m_playing then [] else [Effect.forward .left_click_down]
  (s1, ef1 ++ ef2)

/-- Source: `RecorderMouseInput::left_click_up` (main.cpp line 100). -/
def RecState.left_click_up (s : RecState) : RecState × List Effect :=
  let e : Event := { type := .LCLK_U }
  let s1 := if s.m_recording then { s with m_events := s.m_events ++ [e] } else s
  let ef1 := if s.m_recording then [Effect.append e] else []
  let ef2 := if s1.m_playing then [] else [Effect.forward .left_click_up]
  (s1, ef1 ++ ef2)

/-- Source: `RecorderMouseInput::right_click_down` (main.cpp line 105). -/
def RecState.right_click_down (s : RecState) : RecState × List Effect :=
  let e : Event := { type := .RCLK_D }
  let s1 := if s.m_recording then { s with m_events := s.m_events ++ [e] } else s
  let ef1 := if s.m_recording then [Effect.append e] else []
  let ef2 := if s1.m_playing then [] else [Effect.forward .right_click_down]
  (s1, ef1 ++ ef2)

/-- Source: `RecorderMouseInput::right_click_up` (main.cpp line 110). -/
def RecState.right_click_up (s : RecState) : RecState × List Effect :=
  let e : Event := { type := .RCLK_U }
  let s1 := if s.m_recording then { s with m_events := s.m_events ++ [e] } else s
  let ef1 := if s.m_recording then [Effect.append e] else []
  let ef2 := if s1.m_playing then [] else [Effect.forward .right_click_up]
  (s1, ef1 ++ ef2)

/-- Source: `RecorderMouseInput::double_click` (main.cpp line 115). -/
def RecState.double_click (s : RecState) : RecState × List Effect :=
  let e : Event := { type := .DDCLK }
  let s1 := if s.m_recording then { s with m_events := s.m_events ++ [e] } else s
  let ef1 := if s.m_recording then [Effect.append e] else []
  let ef2 := if s1.m_playing then [] else [Effect.forward .double_click]
  (s1, ef1 ++ ef2)

/-- Source: `RecorderMouseInput::scroll` (main.cpp line 120):
`if (m_recording) m_events.emplace_back(SCRL, v, d);`
`if (!m_playing) MouseInput::scroll(v, d, wa);`
The wheel axis `wa` is not stored in the logged event. -/
def RecState.scroll (s : RecState) (v d : Int) (wa : WheelAxis) : RecState × List Effect :=
  let e : Event := { type := .SCRL, a := v, b := d }
  let s1 := if s.m_recording then { s with m_events := s.m_events ++ [e] } else s
  let ef1 := if s.m_recording then [Effect.append e] else []
  let ef2 := if s1.m_playing then [] else [Effect.forward (.scroll v d wa)]
  (s1, ef1 ++ ef2)

/-- Source: `RecorderMouseInput::move_to` (main.cpp line 125). -/
def RecState.move_to (s : RecState) (x y : Int) : RecState × List Effect :=
  let e : Event := { type := .MV, a := x, b := y }
  let s1 := if s.m_recording then { s with m_events := s.m_events ++ [e] } else s
  let ef1 := if s.m_recording then [Effect.append e] else []
  let ef2 := if s1.m_playing then [] else [Effect.forward (.move_to x y)]
  (s1, ef1 ++ ef2)

/-- Dispatch one raw interaction call to the corresponding
`RecorderMouseInput` override. -/
def RecState.dispatchCall (s : RecState) : MouseCall → RecState × List Effect
  | .left_click_down => s.left_click_down
  | .left_click_up => s.left_click_up
  | .right_click_down => s.right_click_down
  | .right_click_up => s.right_click_up
  | .double_click => s.double_click
  | .scroll v d wa => s.scroll v d wa
  | .move_to x y => s.move_to x y

/-- The `Event` that the recorder logs for a given incoming call (read
off the seven overrides above). -/
def recordedEvent : MouseCall → Event
  | .left_click_down => { type := .LCLK_D }
  | .left_click_up => { type := .LCLK_U }
  | .right_click_down => { type := .RCLK_D }
  | .right_click_up => { type := .RCLK_U }
  | .double_click => { type := .DDCLK }
  | .scroll v d _ => { type := .SCRL, a := v, b := d }
  | .move_to x y => { type := .MV, a := x, b := y }

/-- Source: `RecorderMouseInput::record` (main.cpp line 147):
`void record(bool r) { m_recording = r; if (r) m_events.clear(); }` -/
def RecState.record (s : RecState) (r : Bool) : RecState :=
  { s with m_recording := r, m_events := if r then [] else s.m_events }

/-- The call that `RecorderMouseInput::play` makes on the wrapped
`MouseInput` for one logged event (the `switch` in main.cpp line 153):
a `SCRL` event is always replayed with `WheelAxis::waVertical`. -/
def playDispatch : Event → MouseCall
  | { type := .LCLK_U, .. } => .left_click_up
  | { type := .LCLK_D, .. } => .left_click_down
  | { type := .RCLK_U, .. } => .right_click_up
  | { type := .RCLK_D, .. } => .right_click_down
  | { type := .DDCLK, .. } => .double_click
  | { type := .SCRL, a := a, b := b } => .scroll a b .waVertical
  | { type := .MV, a := a, b := b } => .move_to a b

/-- Source: `RecorderMouseInput::play` (main.cpp line 149), viewed as one atomic
call: sets `m_playing`, dispatches every logged event directly on the
wrapped `MouseInput` (bypassing the overrides, so nothing is appended to
the log), then clears `m_playing`.  Returns the post-call state and the
sequence of calls dispatched to the wrapped dispatcher. -/
def RecState.play (s : RecState) : RecState × List MouseCall :=
  ({ s with m_playing := false }, s.m_events.map playDispatch)

/-- Run a sequence of raw interaction calls through the recorder,
accumulating the effect trace. -/
def RecState.runCalls (s : RecState) : List MouseCall → RecState × List Effect
  | [] => (s, [])
  | c :: cs =>
      let (s1, efs) := s.dispatchCall c
      let (s2, efs') := s1.runCalls cs
      (s2, efs ++ efs')

/-- The calls forwarded to the wrapped `MouseInput` in an effect trace. -/
def forwardedCalls (efs : List Effect) : List MouseCall :=
  efs.filterMap fun
    | .forward c => some c
    | .append _ => none

/-! ## Character-level stream model (`std::ostream` / `std::istream`) -/

/-- The character `'0' + n` for a decimal digit value `n < 10`. -/
def digitChar (n : Nat) : Char := Char.ofNat (48 + n)

/-- Decimal digits of a natural number, most significant first, via
fuel-bounded recursion (`fuel ≥ n` always suffices since `n / 10 < n`
for `n ≥ 10`). -/
def natDigits : Nat → Nat → List Char
  | 0, _ => []
  | fuel + 1, n =>
      if n < 10 then [digitChar n]
      else natDigits fuel (n / 10) ++ [digitChar (n % 10)]

/-- The characters that `operator<<` produces for a `long` value:
decimal digits, preceded by `'-'` when negative. -/
def intChars (i : Int) : List Char :=
  if i < 0 then '-' :: natDigits (i.natAbs + 1) i.natAbs
  else natDigits (i.toNat + 1) i.toNat

/-- Source: `RecorderMouseInput::save` (main.cpp line 131):
`for (const Event &evt : m_events)`
`  stream << evt.type << " " << evt.a << " " << evt.b << std::endl;`
(`evt.type` is printed as its integer enumerator value; `std::endl`
emits a newline). -/
def save (events : List Event) : List Char :=
  events.foldl
    (fun acc evt =>
      acc ++ intChars evt.type.toCInt ++ [' '] ++ intChars evt.a
          ++ [' '] ++ intChars evt.b ++ ['\n'])
    []

/-- An input character stream with the `std::ios` state bits relevant
here (`badbit` is never set by formatted extraction on an in-memory
stream, so it is omitted). -/
structure IStream where
  rem : List Char
  eofbit : Bool := false
  failbit : Bool := false
deriving DecidableEq, Repr

/-- Predicate `std::ios::good()`: no error bit set. -/
def IStream.good (s : IStream) : Bool := !s.eofbit && !s.failbit

/-- Whitespace for the default-locale `skipws` behaviour. -/
def isWS (c : Char) : Bool := c = ' ' || c = '\n' || c = '\t' || c = '\r'

/-- Drop leading whitespace. -/
def skipWS : List Char → List Char
  | [] => []
  | c :: cs => if isWS c then skipWS cs else c :: cs

/-- Value of a decimal digit character, `none` if not a digit. -/
def digitVal (c : Char) : Option Nat :=
  if 48 ≤ c.toNat ∧ c.toNat ≤ 57 then some (c.toNat - 48) else none

/-- Consume a maximal nonempty run of decimal digits; `none` when the
first character is not a digit. -/
def takeDigits (acc : Nat) : List Char → Nat × List Char
  | [] => (acc, [])
  | c :: cs =>
      match digitVal c with
      | some d => takeDigits (acc * 10 + d) cs
      | none => (acc, c :: cs)

/-- Parse an optionally signed decimal integer from the head of the
character list; `none` when no digit follows.  (On failure the stream
position is never observed by `load`, since `failbit` ends its loop.) -/
def parseInt : List Char → Option (Int × List Char)
  | [] => none
  | c :: cs =>
      if c = '-' then
        match cs with
        | d :: _ =>
            match digitVal d with
            | some _ => let (n, rest) := takeDigits 0 cs; some (-(n : Int), rest)
            | none => none
        | [] => none
      else
        match digitVal c with
        | some _ => let (n, rest) := takeDigits 0 (c :: cs); some ((n : Int), rest)
        | none => none

/-- Formatted extraction `stream >> x` for an integer variable whose
current (possibly indeterminate) value is `old`, following C++11:
* if an error bit is already set the `sentry` fails, sets `failbit`,
  and the variable is untouched;
* otherwise the `sentry` skips whitespace; reaching end-of-stream while
  skipping sets `eofbit` and `failbit` and leaves the variable
  untouched;
* otherwise `num_get` runs: on conversion failure it stores `0` and
  sets `failbit`; on success it stores the value (end-of-stream reached
  by consuming the final digit sets `eofbit`). -/
def extractInt (s : IStream) (old : Int) : IStream × Int :=
  if s.eofbit || s.failbit then
    ({ s with failbit := true }, old)
  else
    match skipWS s.rem with
    | [] => (⟨[], true, true⟩, old)
    | c :: cs =>
        match parseInt (c :: cs) with
        | none => ({ s with rem := c :: cs, failbit := true }, 0)
        | some (v, rest) =>
            ({ s with rem := rest, eofbit := rest.isEmpty }, v)

/-- The C++ cast `EEvents(t)` performed by `load`'s
`m_events.emplace_back(EEvents(type), a, b)`: for `t` in `0..6` the
corresponding enumerator.  Any other value is representable in the enum
but equals no enumerator; it can arise in `load` only from a malformed
log or from the junk bits of an uninitialized local, so the model takes
the resulting unspecified enum value as the parameter `junk`. -/
def castEEvents (t : Int) (junk : EEvents) : EEvents :=
  if t = 0 then .LCLK_U
  else if t = 1 then .RCLK_U
  else if t = 2 then .LCLK_D
  else if t = 3 then .RCLK_D
  else if t = 4 then .DDCLK
  else if t = 5 then .SCRL
  else if t = 6 then .MV
  else junk

/-- The (indeterminate) initial contents of `load`'s uninitialized
locals `int type; long a, b;` — and the enum value that the cast
`EEvents(type)` yields when `type` keeps junk bits that are outside
`0..6`.  Every theorem below quantifies over these values. -/
structure Junk where
  t : Int
  a : Int
  b : Int
  e : EEvents
deriving DecidableEq, Repr

/-- One pass of the `while (stream.good())` loop body of
`RecorderMouseInput::load` (main.cpp line 137), fuel-bounded.  Each
iteration either consumes at least one character or sets `failbit`
(ending the loop), so fuel `input.length + 1` always suffices. -/
def loadAux (j : Junk) : Nat → IStream → List Event → List Event
  | 0, _, acc => acc
  | fuel + 1, s, acc =>
      if s.good then
        let (s1, t) := extractInt s j.t
        let (s2, a) := extractInt s1 j.a
        let (s3, b) := extractInt s2 j.b
        loadAux j fuel s3 (acc ++ [⟨castEEvents t j.e, a, b⟩])
      else acc

/-- Source: `RecorderMouseInput::load` (main.cpp line 137):
`m_events.clear();`
`while (stream.good()) { int type; long a, b;`
`  stream >> type >> a >> b;`
`  m_events.emplace_back(EEvents(type), a, b); }`
The returned list is the new `m_events` (the old log is cleared). -/
def load (j : Junk) (input : List Char) : List Event :=
  loadAux j (input.length + 1) ⟨input, false, false⟩ []

/-! ## Small-step view of the recorder

`play()` calls `wxSafeYield()` after dispatching each logged event
(main.cpp line 163), which re-enters the host event loop: UI events —
mouse input on the canvas, toggling the Record button — can be handled
between two replayed events.  To reason about the states that are
reachable *during* a replay, the recorder is also given as a transition
system whose state carries the position inside a running `play()` call
(`replay = some pending` while the loop is between yields). -/

/-- Recorder state plus the pending tail of the log inside a running
`play()` call (`none` when no replay is in progress). -/
structure MachineState where
  recorder : RecState
  replay : Option (List Event)
deriving DecidableEq, Repr

/-- One step of the recorder machine.  `input` and `recordStep` model
calls delivered by the host event loop (at a yield point, when a replay
is in progress); `playStart`, `playStep` and `playEnd` decompose
`RecorderMouseInput::play` into its loop iterations. -/
inductive Step : MachineState → MachineState → Prop where
  | input (m : MachineState) (c : MouseCall) :
      Step m ⟨(m.recorder.dispatchCall c).1, m.replay⟩
  | recordStep (m : MachineState) (r : Bool) :
      Step m ⟨m.recorder.record r, m.replay⟩
  | playStart (m : MachineState) (h : m.replay = none) :
      Step m ⟨{ m.recorder with m_playing := true }, some m.recorder.m_events⟩
  | playStep (m : MachineState) (e : Event) (pending : List Event)
      (h : m.replay = some (e :: pending)) :
      Step m ⟨m.recorder, some pending⟩
  | playEnd (m : MachineState) (h : m.replay = some []) :
      Step m ⟨{ m.recorder with m_playing := false }, none⟩

/-- The machine states reachable from a freshly constructed recorder. -/
def Reachable (m : MachineState) : Prop :=
  Relation.ReflTransGen Step ⟨RecState.init, none⟩ m

/-- The guarded usage discipline of §7 of the spec: identical to `Step`
except that a replay may only be started while not Recording, and
`record(true)` may only be issued while not Playing.  (The recorder
itself does not enforce these guards — that is the content of claim
C1's correction.) -/
inductive GuardedStep : MachineState → MachineState → Prop where
  | input (m : MachineState) (c : MouseCall) :
      GuardedStep m ⟨(m.recorder.dispatchCall c).1, m.replay⟩
  | recordStep (m : MachineState) (r : Bool)
      (h : r = true → m.recorder.m_playing = false) :
      GuardedStep m ⟨m.recorder.record r, m.replay⟩
  | playStart (m : MachineState) (h : m.replay = none)
      (hrec : m.recorder.m_recording = false) :
      GuardedStep m ⟨{ m.recorder with m_playing := true }, some m.recorder.m_events⟩
  | playStep (m : MachineState) (e : Event) (pending : List Event)
      (h : m.replay = some (e :: pending)) :
      GuardedStep m ⟨m.recorder, some pending⟩
  | playEnd (m : MachineState) (h : m.replay = some []) :
      GuardedStep m ⟨{ m.recorder with m_playing := false }, none⟩

/-- Machine states reachable under the guarded usage discipline. -/
def GuardedReachable (m : MachineState) : Prop :=
  Relation.ReflTransGen GuardedStep ⟨RecState.init, none⟩ m

/-! ## CSG settings (convexity spin control) -/

/-- The `CSGSettings` value object (declared in `GLScene.hpp`; the
fields mirror §3 of the spec — only `convexity` carries behaviour that
any claim touches). -/
structure CSGSettings where
  enabled : Bool
  algo : Nat
  depth_algo : Nat
  optimization : Nat
  convexity : Nat
deriving DecidableEq, Repr

/-- Modelled from the spec: `CSGSettings::set_convexity` (defined in
`GLScene.hpp`, which is not under `src/`) — a validated setter that
"rejects non-positive input (no-op, prior value retained)" (§4.5).
Its argument is C++ `unsigned`, so non-positive means zero. -/
def CSGSettings.set_convexity (s : CSGSettings) (c : Nat) : CSGSettings :=
  if c > 0 then { s with convexity := c } else s

/-- The `wxEVT_SPINCTRL` handler of the Convexity spin control
(main.cpp line 431): reads the display's settings, and only when the
spin value `c` satisfies `c > 0` calls `set_convexity(unsigned(c))` and
applies the new settings to the canvas.  The state is the `CSGSettings`
held by the Display (`m_canvas->get_csgsettings()` /
`m_canvas->apply_csgsettings`); the result is the Display's settings
after the handler runs. -/
def convexitySpinHandler (disp : CSGSettings) (c : Int) : CSGSettings :=
  if c > 0 then disp.set_convexity c.toNat else disp

/-! ## The Record toggle-button handler of `MyFrame` -/

/-- The part of `MyFrame`'s state that the `record_btn` handler
(main.cpp line 441) touches: the single current-job slot `m_ui_job`
(holding the project filename of the `SLAJob`, `none` when no job was
ever created), the status bar text, whether the canvas camera was
reset, and the recorder. -/
structure FrameState where
  m_ui_job : Option (List Char)
  statusText : List Char
  cameraWasReset : Bool
  mouse : RecState
deriving DecidableEq, Repr

/-- The `wxEVT_TOGGLEBUTTON` handler of the Record button (main.cpp
line 441).  `btnValue` is `record_btn->GetValue()`; `dlgPath` is the
outcome of the "Select output file" dialog in the stop branch (`none`
when cancelled — an external input).  Returns the new frame state and
the character stream written to the chosen file (`none` when nothing
was written).

* If `!m_ui_job`: set the status text to `"No project loaded!"` and
  return — nothing else happens.
* If the button is now pressed: reset the camera, notify the controller
  (`on_scene_updated`, which does not change the state modelled here),
  and call `m_mouse.record(true)`.
* Otherwise call `m_mouse.record(false)` and, if the dialog was
  confirmed, write the project filename line followed by the saved
  log. -/
def recordBtnHandler (s : FrameState) (btnValue : Bool)
    (dlgPath : Option (List Char)) : FrameState × Option (List Char) :=
  match s.m_ui_job with
  | none => ({ s with statusText := "No project loaded!".data }, none)
  | some fname =>
      if btnValue then
        ({ s with cameraWasReset := true, mouse := s.mouse.record true }, none)
      else
        let s1 := { s with mouse := s.mouse.record false }
        match dlgPath with
        | none => (s1, none)
        | some _ => (s1, some (fname ++ ['\n'] ++ save s1.mouse.m_events))

/-! ## The SLA background job -/

/-- A progress/status report delivered through the job's status
callback (`update_status(percent, text)`). -/
structure JobStatus where
  percent : Int
  text : List Char
deriving DecidableEq, Repr

/-- The external outcomes that determine a run of
`MyFrame::SLAJob::process` (main.cpp line 510): whether
`Model::read_from_file`, `SLAPrint::apply` or `SLAPrint::process`
throws (`some` carries the exception's `what()` message), and the
status reports the slicing step issues through the status callback
before finishing or throwing. -/
structure SLAEnv where
  readErr : Option (List Char)
  applyErr : Option (List Char)
  sliceErr : Option (List Char)
  sliceStatuses : List JobStatus
deriving DecidableEq, Repr

/-- Source: `MyFrame::SLAJob::process` (main.cpp line 510): reads the model,
applies it to a fresh `SLAPrint`, sets the task, installs the status
callback, and runs `m_print->process()` inside
`try { ... } catch (std::exception &e) { update_status(0, "Exception during processing: " + e.what()); }`.
Only the slicing call is inside the `try`; an exception from
`read_from_file` or `apply` escapes `process()`.  The result is the
list of status reports issued, paired with `Except.error msg` when an
exception escapes `process()`. -/
def SLAJob.process (env : SLAEnv) : List JobStatus × Except (List Char) Unit :=
  match env.readErr with
  | some e => ([], .error e)
  | none =>
      match env.applyErr with
      | some e => ([], .error e)
      | none =>
          match env.sliceErr with
          | some e =>
              (env.sliceStatuses
                ++ [⟨0, "Exception during processing: ".data ++ e⟩], .ok ())
          | none => (env.sliceStatuses, .ok ())

/-- Modelled from the spec: the job boundary of `Slic3r::GUI::Job`
(`slic3r/GUI/Job.hpp`, not under `src/`), §4.4 — "any failure raised
inside `process()` is caught at the job boundary and converted into a
terminal status report (`percent = 0`, descriptive text); it does not
propagate past the job, and `finalize()` still runs" exactly once.
Returns the full sequence of status reports and the number of times
`finalize()` ran. -/
def Job.run (proc : List JobStatus × Except (List Char) Unit) :
    List JobStatus × Nat :=
  match proc with
  | (sts, .ok ()) => (sts, 1)
  | (sts, .error e) => (sts ++ [⟨0, "Error: ".data ++ e⟩], 1)

/-- A complete run of the SLA job: `process()` under the spec-modelled
job boundary. -/
def SLAJob.run (env : SLAEnv) : List JobStatus × Nat :=
  Job.run (SLAJob.process env)

/-- Returns `true` unless the call is a scroll on the horizontal wheel axis. -/
def notHorizScroll : MouseCall → Bool
  | .scroll _ _ .waHorizontal => false
  | _ => true

/-- The live recording session of §8 Scenario A: a freshly constructed
recorder is put into Recording (`record(true)`) and the interaction
calls arrive one by one. -/
def liveSession (cs : List MouseCall) : RecState × List Effect :=
  (RecState.init.record true).runCalls cs

/-- The kind ordinals exactly as §6 of the spec states them, under the
spec's names: `PointerUpLeft = 0` (`LCLK_U`), `PointerUpRight = 1`
(`RCLK_U`), `PointerDownLeft = 2` (`LCLK_D`), `PointerDownRight = 3`
(`RCLK_D`), `DoubleClick = 4` (`DDCLK`), `Scroll = 5` (`SCRL`),
`Move = 6` (`MV`).  Stated from the spec's words, to be compared with
the source-derived `EEvents.toCInt` used by `save`. -/
def specKindOrd : EEvents → Nat
  | .LCLK_U => 0
  | .RCLK_U => 1
  | .LCLK_D => 2
  | .RCLK_D => 3
  | .DDCLK => 4
  | .SCRL => 5
  | .MV => 6

/-- One serialized log line as §6 of the spec describes the format:
three integers `<kind> <paramA> <paramB>` separated by single spaces,
terminated by a newline, with `kind` the spec's ordinal of the event
kind.  Stated from the spec's words. -/
def specLine (e : Event) : List Char :=
  intChars (specKindOrd e.type : Int) ++ [' '] ++ intChars e.a
    ++ [' '] ++ intChars e.b ++ ['\n']

/-! ## Helper lemmas -/

/-- Uniform description of the seven `RecorderMouseInput` overrides:
when Recording the corresponding event is appended (the append precedes
any forwarding in the effect trace), and the call is forwarded to the
wrapped dispatcher exactly when not Playing. -/
theorem dispatchCall_eq (s : RecState) (c : MouseCall) :
    s.dispatchCall c =
      ({ s with m_events :=
          s.m_events ++ (if s.m_recording then [recordedEvent c] else []) },
        (if s.m_recording then [Effect.append (recordedEvent c)] else [])
          ++ (if s.m_playing then [] else [Effect.forward c])) := by
  obtain ⟨ev, mr, mp⟩ := s
  cases c <;> cases mr <;> cases mp <;>
    simp [RecState.dispatchCall, RecState.left_click_down,
      RecState.left_click_up, RecState.right_click_down,
      RecState.right_click_up, RecState.double_click, RecState.scroll,
      RecState.move_to, recordedEvent]

/-- The handlers never change the two mode flags. -/
theorem dispatchCall_flags (s : RecState) (c : MouseCall) :
    (s.dispatchCall c).1.m_recording = s.m_recording ∧
    (s.dispatchCall c).1.m_playing = s.m_playing := by
  rw [dispatchCall_eq]; exact ⟨rfl, rfl⟩

/-- Running a call sequence: the flags are preserved, the log grows by
the recorded events exactly when Recording, and the forwarded calls are
the full sequence exactly when not Playing. -/
theorem runCalls_spec (cs : List MouseCall) (s : RecState) :
    (s.runCalls cs).1.m_recording = s.m_recording ∧
    (s.runCalls cs).1.m_playing = s.m_playing ∧
    (s.runCalls cs).1.m_events =
      s.m_events ++ (if s.m_recording then cs.map recordedEvent else []) ∧
    forwardedCalls (s.runCalls cs).2 = (if s.m_playing then [] else cs) := by
  induction cs generalizing s with
  | nil => simp [RecState.runCalls, forwardedCalls]
  | cons c cs ih =>
      obtain ⟨ih1, ih2, ih3, ih4⟩ := ih ((s.dispatchCall c).1)
      rw [dispatchCall_eq] at ih1 ih2 ih3 ih4
      refine ⟨?_, ?_, ?_, ?_⟩ <;>
        simp only [RecState.runCalls, dispatchCall_eq, forwardedCalls,
          List.filterMap_append] <;>
        cases hr : s.m_recording <;> cases hp : s.m_playing <;>
        simp_all [forwardedCalls]

/-! ## Claim theorems -/

/-- C5: for each report operation of the recorder, if the recorder is
Recording then the corresponding event (with its parameters) is
appended to the log, and the append precedes any other action in the
effect trace; the call is forwarded to the wrapped `MouseInput`
dispatcher if and only if the recorder is not Playing. -/
theorem C5_report_operations (s : RecState) (c : MouseCall) :
    s.dispatchCall c =
      ({ s with m_events :=
          s.m_events ++ (if s.m_recording then [recordedEvent c] else []) },
        (if s.m_recording then [Effect.append (recordedEvent c)] else [])
          ++ (if s.m_playing then [] else [Effect.forward c])) :=
  dispatchCall_eq s c

/-- C7: for any prior valid (positive) convexity value `v`, the
Convexity spin handler invoked with a non-positive value is a no-op:
the Display's settings are unchanged (nothing new is applied) and
reading the convexity afterwards still returns `v`. -/
theorem C7_convexity_rejection (disp : CSGSettings) (v : Nat) (c : Int)
    (hv : disp.convexity = v) (hposv : 0 < v) (hc : c ≤ 0) :
    convexitySpinHandler disp c = disp ∧
    (convexitySpinHandler disp c).convexity = v := by
  have hnot : ¬ c > 0 := not_lt.mpr hc
  constructor <;> simp [convexitySpinHandler, hnot, hv]

/-- Witness for C7 at `convexity = 5`, spin value `0`. -/
theorem C7_convexity_rejection_witness :
    convexitySpinHandler ⟨true, 0, 0, 0, 5⟩ 0 = ⟨true, 0, 0, 0, 5⟩ ∧
    (convexitySpinHandler ⟨true, 0, 0, 0, 5⟩ 0).convexity = 5 :=
  C7_convexity_rejection ⟨true, 0, 0, 0, 5⟩ 5 0 rfl (by decide) (by decide)

/-- C9: the wheel-axis argument of a scroll interaction is not stored
in the event log — the recorder state resulting from `scroll v d wa`
is the same for every axis `wa`, and the logged event carries only the
rotation `v` and delta `d` — and `play()` dispatches every replayed
scroll event with the vertical wheel axis. -/
theorem C9_scroll_axis_dropped (s : RecState) (v d : Int)
    (wa wa' : WheelAxis) :
    (s.scroll v d wa).1 = (s.scroll v d wa').1 ∧
    (s.scroll v d wa).1.m_events =
      s.m_events ++ (if s.m_recording then [⟨.SCRL, v, d⟩] else []) ∧
    playDispatch ⟨.SCRL, v, d⟩ = .scroll v d .waVertical := by
  refine ⟨rfl, ?_, rfl⟩
  cases hr : s.m_recording <;> simp [RecState.scroll, hr]

/-- C10: when the current-job slot is empty, toggling the Record
control changes nothing but the status text, which becomes
`"No project loaded!"`; in particular the recorder state and the event
log are untouched and no log is written. -/
theorem C10_record_btn_without_job (s : FrameState) (b : Bool)
    (dlg : Option (List Char)) (h : s.m_ui_job = none) :
    recordBtnHandler s b dlg =
      ({ s with statusText := "No project loaded!".data }, none) := by
  simp [recordBtnHandler, h]

/-- Witness for C10 on a concrete frame state with an empty job slot. -/
theorem C10_record_btn_without_job_witness :
    recordBtnHandler ⟨none, [], false, RecState.init⟩ true none =
      (⟨none, "No project loaded!".data, false, RecState.init⟩, none) :=
  C10_record_btn_without_job ⟨none, [], false, RecState.init⟩ true none rfl

/-- C6: whichever phase of `SLAJob::process` fails (model reading,
applying the config, or slicing), the failure is contained: the job run
ends with a terminal status report whose `percent` is `0` and whose
text is non-empty, nothing propagates past the job (the run is a total
function into statuses), and `finalize()` runs exactly once. -/
theorem C6_job_failure_contained (env : SLAEnv)
    (hfail : env.readErr ≠ none ∨ env.applyErr ≠ none ∨ env.sliceErr ≠ none) :
    (SLAJob.run env).2 = 1 ∧
    ∃ sts last, (SLAJob.run env).1 = sts ++ [last] ∧
      last.percent = 0 ∧ last.text ≠ [] := by
  obtain ⟨re, ae, se, sl⟩ := env
  cases re with
  | some e =>
      refine ⟨rfl, [], ⟨0, "Error: ".data ++ e⟩, rfl, rfl, ?_⟩
      simp [SLAJob.run, SLAJob.process, Job.run]
  | none =>
      cases ae with
      | some e =>
          refine ⟨rfl, [], ⟨0, "Error: ".data ++ e⟩, rfl, rfl, ?_⟩
          simp [SLAJob.run, SLAJob.process, Job.run]
      | none =>
          cases se with
          | some e =>
              refine ⟨rfl, sl,
                ⟨0, "Exception during processing: ".data ++ e⟩, rfl, rfl, ?_⟩
              simp [SLAJob.run, SLAJob.process, Job.run]
          | none => simp at hfail

/-- Witness for C6: a run whose slicing step throws `"boom"` after one
50% report. -/
theorem C6_job_failure_contained_witness :
    (SLAJob.run ⟨none, none, some "boom".data, [⟨50, "Slicing".data⟩]⟩).2 = 1 ∧
    ∃ sts last,
      (SLAJob.run ⟨none, none, some "boom".data, [⟨50, "Slicing".data⟩]⟩).1
        = sts ++ [last] ∧ last.percent = 0 ∧ last.text ≠ [] :=
  C6_job_failure_contained ⟨none, none, some "boom".data, [⟨50, "Slicing".data⟩]⟩
    (Or.inr (Or.inr (by decide)))

/-- C8: `save` writes each logged event, in log order, as one line of
three integers `<kind> <paramA> <paramB>` terminated by a newline,
where `kind` is the ordinal of the event's kind in the fixed order
`PointerUpLeft = 0, PointerUpRight = 1, PointerDownLeft = 2,
PointerDownRight = 3, DoubleClick = 4, Scroll = 5, Move = 6`. -/
theorem C8_save_format (es : List Event) :
    save es = (es.map specLine).flatten := by
  have hline : ∀ (acc : List Char) (evt : Event),
      acc ++ intChars evt.type.toCInt ++ [' '] ++ intChars evt.a
          ++ [' '] ++ intChars evt.b ++ ['\n'] = acc ++ specLine evt := by
    intro acc evt
    have hord : evt.type.toCInt = (specKindOrd evt.type : Int) := by
      cases evt.type <;> rfl
    simp [specLine, hord]
  have haux : ∀ (es : List Event) (acc : List Char),
      es.foldl
        (fun acc evt =>
          acc ++ intChars evt.type.toCInt ++ [' '] ++ intChars evt.a
              ++ [' '] ++ intChars evt.b ++ ['\n'])
        acc = acc ++ (es.map specLine).flatten := by
    intro es
    induction es with
    | nil => intro acc; simp
    | cons e es ih =>
        intro acc
        rw [List.map_cons, List.foldl_cons, ih, hline]
        simp
  have h := haux es []
  simp only [List.nil_append] at h
  exact h

/-- Replaying the logged event of a call reproduces the call itself,
except that a horizontal-axis scroll comes back with the vertical
axis. -/
theorem playDispatch_recordedEvent :
    ∀ c : MouseCall, notHorizScroll c = true →
      playDispatch (recordedEvent c) = c
  | .left_click_down, _ => rfl
  | .left_click_up, _ => rfl
  | .right_click_down, _ => rfl
  | .right_click_up, _ => rfl
  | .double_click, _ => rfl
  | .scroll _ _ .waVertical, _ => rfl
  | .scroll _ _ .waHorizontal, h => nomatch h
  | .move_to _ _, _ => rfl

/-- Replay hygiene: `play()` leaves the recorder state unchanged when the recorder was
not Playing to begin with (the flag is set and cleared inside the
call). -/
theorem play_state_eq (s : RecState) (h : s.m_playing = false) :
    s.play.1 = s := by
  obtain ⟨ev, mr, mp⟩ := s
  subst h
  rfl

/-- C2 counterexample: one live horizontal-axis scroll is forwarded to
the wrapped dispatcher with the horizontal axis while it is recorded,
but `play()` replays the log with a different call: the scroll arrives
with the vertical axis. -/
theorem C2_counterexample_horizontal_scroll :
    forwardedCalls (liveSession [.scroll 1 120 .waHorizontal]).2
        = [.scroll 1 120 .waHorizontal] ∧
    ((liveSession [.scroll 1 120 .waHorizontal]).1.record false).play.2
        ≠ [.scroll 1 120 .waHorizontal] := by
  decide

/-- C2 amended: provided every scroll of the recorded interaction used
the vertical wheel axis, `play()` drives the wrapped dispatcher through
exactly the live call sequence (same calls, same parameters, in
order); moreover `play()` leaves the recorder state unchanged, so every
invocation of `play()` dispatches the same sequence. -/
theorem C2_replay_equivalence (cs : List MouseCall)
    (h : ∀ c ∈ cs, notHorizScroll c = true) :
    forwardedCalls (liveSession cs).2 = cs ∧
    ((liveSession cs).1.record false).play.2 = cs ∧
    ((liveSession cs).1.record false).play.1 = (liveSession cs).1.record false := by
  obtain ⟨h1, h2, h3, h4⟩ := runCalls_spec cs (RecState.init.record true)
  have hrec : (RecState.init.record true).m_recording = true := rfl
  have hplay : (RecState.init.record true).m_playing = false := rfl
  rw [hrec] at h3
  rw [hplay] at h4
  simp only [if_true, if_false, List.nil_append] at h3 h4
  have hs2play : ((liveSession cs).1.record false).m_playing = false := by
    show (liveSession cs).1.m_playing = false
    exact h2.trans hplay
  have hs2ev : ((liveSession cs).1.record false).m_events
      = cs.map recordedEvent := by
    show (if false then [] else (liveSession cs).1.m_events)
        = cs.map recordedEvent
    simpa [liveSession] using h3
  refine ⟨?_, ?_, play_state_eq _ hs2play⟩
  · simpa [liveSession] using h4
  · show ((liveSession cs).1.record false).m_events.map playDispatch = cs
    rw [hs2ev, List.map_map]
    have hcong := List.map_congr_left
      (fun c hc => playDispatch_recordedEvent c (h c hc))
    simpa using hcong

/-- Witness for C2 (amended) on Scenario A of the spec:
`[Move(10,20), PointerDownLeft, PointerUpLeft]`. -/
theorem C2_replay_equivalence_witness :
    (∀ c ∈ ([.move_to 10 20, .left_click_down, .left_click_up] :
        List MouseCall), notHorizScroll c = true) ∧
    (forwardedCalls
        (liveSession [.move_to 10 20, .left_click_down, .left_click_up]).2
      = [.move_to 10 20, .left_click_down, .left_click_up] ∧
    ((liveSession [.move_to 10 20, .left_click_down, .left_click_up]).1.record
        false).play.2
      = [.move_to 10 20, .left_click_down, .left_click_up] ∧
    ((liveSession [.move_to 10 20, .left_click_down, .left_click_up]).1.record
        false).play.1
      = (liveSession [.move_to 10 20, .left_click_down,
          .left_click_up]).1.record false) :=
  ⟨by decide, C2_replay_equivalence _ (by decide)⟩

/-- C3 (documents the code bug): saving the one-event log
`[Move(10,20)]` — the stream `"6 10 20\n"` — and loading it back does
NOT reproduce the log: because `load`'s `while (stream.good())` loop
tests the stream before the extractions fail at end-of-stream, it runs
one extra iteration and appends a spurious event built from the
uninitialized locals (any `j : Junk`), yielding two events instead of
one. -/
theorem C3_roundtrip_appends_junk (j : Junk) :
    load j (save [⟨.MV, 10, 20⟩]) =
      [⟨.MV, 10, 20⟩, ⟨castEEvents j.t j.e, j.a, j.b⟩] := by
  obtain ⟨t, a, b, e⟩ := j
  rfl

/-- C4 (documents the code bug): loading a log whose trailing record
has fewer than three numeric tokens (`"6 10 20\n5 1\n"`) does append an
event for the incomplete record: the two parsed tokens plus the junk
value of the uninitialized local `b`.  (The events read before it are
retained and no error is raised, but the claimed "no event is appended
for the incomplete record" fails.) -/
theorem C4_truncated_record_appended (j : Junk) :
    load j ("6 10 20\n5 1\n".data) =
      [⟨.MV, 10, 20⟩, ⟨.SCRL, 1, j.b⟩] := by
  obtain ⟨t, a, b, e⟩ := j
  rfl

/-- C1 counterexample: the mutual-exclusion invariant fails — a state
with `m_recording` and `m_playing` simultaneously `true` is reachable:
`record(true)` followed by `play()` (which the recorder accepts, since
`play()` has no state guard) puts the machine inside a replay while
still Recording. -/
theorem C1_counterexample_both_flags :
    ∃ m : MachineState,
      Reachable m ∧ m.recorder.m_recording = true ∧
        m.recorder.m_playing = true := by
  refine ⟨⟨⟨[], true, true⟩, some []⟩, ?_, rfl, rfl⟩
  have h1 : Step ⟨RecState.init, none⟩ ⟨⟨[], true, false⟩, none⟩ :=
    Step.recordStep ⟨RecState.init, none⟩ true
  have h2 : Step ⟨⟨[], true, false⟩, none⟩ ⟨⟨[], true, true⟩, some []⟩ :=
    Step.playStart ⟨⟨[], true, false⟩, none⟩ rfl
  exact Relation.ReflTransGen.head h1 (Relation.ReflTransGen.single h2)

/-- One guarded step preserves the mutual-exclusion invariant. -/
theorem guardedStep_preserves (a b : MachineState)
    (hstep : GuardedStep a b)
    (ih : ¬(a.recorder.m_recording = true ∧ a.recorder.m_playing = true)) :
    ¬(b.recorder.m_recording = true ∧ b.recorder.m_playing = true) := by
  cases hstep with
  | input c =>
      have hf := dispatchCall_flags a.recorder c
      rintro ⟨h1, h2⟩
      exact ih ⟨hf.1 ▸ h1, hf.2 ▸ h2⟩
  | recordStep r hr =>
      rintro ⟨h1, h2⟩
      have h1' : r = true := h1
      have h2' : a.recorder.m_playing = true := h2
      rw [hr h1'] at h2'
      exact Bool.false_ne_true h2'
  | playStart h hrec =>
      rintro ⟨h1, h2⟩
      have h1' : a.recorder.m_recording = true := h1
      rw [hrec] at h1'
      exact Bool.false_ne_true h1'
  | playStep e pending h => exact ih
  | playEnd h =>
      rintro ⟨h1, h2⟩
      have h2' : (false : Bool) = true := h2
      exact Bool.false_ne_true h2'

/-- C1 amended: the recorder itself enforces no mutual exclusion (see
the counterexample), but under the guarded usage discipline — `play()`
started only while not Recording and `record(true)` issued only while
not Playing — Recording and Playing are never simultaneously true in
any reachable state. -/
theorem C1_guarded_mutual_exclusion (mst : MachineState)
    (h : GuardedReachable mst) :
    ¬(mst.recorder.m_recording = true ∧ mst.recorder.m_playing = true) := by
  unfold GuardedReachable at h
  induction h with
  | refl =>
      rintro ⟨h1, _⟩
      exact Bool.false_ne_true h1
  | tail hsteps hstep ih => exact guardedStep_preserves _ _ hstep ih

/-- Witness for C1 (amended) at the initial machine state. -/
theorem C1_guarded_mutual_exclusion_witness :
    ¬((⟨RecState.init, none⟩ : MachineState).recorder.m_recording = true ∧
      (⟨RecState.init, none⟩ : MachineState).recorder.m_playing = true) :=
  C1_guarded_mutual_exclusion ⟨RecState.init, none⟩ Relation.ReflTransGen.refl

end OpenCSGSandbox
